import Mathlib

/-!
Verification development for the input-classification and routing core of a
multi-agent real-estate chatbot.

The program routes a user's request (free text, an image path, or both) to one
of four handlers.  The core under study is:

* `utils/validators.py` — `clean_text` (text normalization) and
  `extract_keywords` (case-insensitive substring keyword matching);
* `agents/router.py` — `classify_input` (input-shape classification) and
  `route_to_agent` (the routing decision cascade);
* `graph/workflow.py` — the workflow sequencer `classify → route → handler`
  and the top-level `process_query` entry point, with the handler nodes of
  `agents/vision_agent.py`, `agents/faq_agent.py` and the static
  clarification/error nodes;
* `config/settings.py` — the fixed keyword tables.

Modelling conventions:

* Python strings are modelled as `List Char`; `None`-able values as `Option`.
* A Python dict key that may be absent is an outer `Option`; a key that is
  present but bound to `None` is `some none`.  `dict.get(k, d)` is `getD`.
* Python exceptions are modelled with `Except (List Char) _`, the `List Char`
  being the exception text `str(e)`.
* Regex character classes are modelled at ASCII level: `\w` as alphanumeric or
  underscore, `\s` as the six ASCII whitespace characters recognised by
  Python's `re` module.
* The remote model calls, image validation and image encoding are opaque
  external capabilities; their outcomes are passed in as `Except` parameters.
* Rationals stand in for the float confidence constants (0.85, 0.9, 1.0, 0.0);
  no float arithmetic occurs in the core.
-/

/-! ## Character classes (utils/validators.py regexes, ASCII model) -/

/-- Python `re` whitespace class `\s` (ASCII): space, tab, LF, VT, FF, CR. -/
def isPySpace (c : Char) : Bool :=
  c = ' ' || c = '\t' || c = '\n' || c = '\x0b' || c = '\x0c' || c = '\r'

/-- Python `re` word-character class `\w` (ASCII): alphanumeric or underscore. -/
def isWordChar (c : Char) : Bool :=
  c.isAlphanum || c = '_'

/-- The character class kept by `clean_text`'s final filter,
`[\w\s\-.,!?'"()]` (validators.py line 28): word characters, whitespace and
the nine listed punctuation characters. -/
def isKeptChar (c : Char) : Bool :=
  isWordChar c || isPySpace c ||
    (c ∈ ['-', '.', ',', '!', '?', Char.ofNat 39, '"', '(', ')'])

/-- Python `str.lower()` (ASCII model): lower-case every character. -/
def pyLower (l : List Char) : List Char :=
  l.map Char.toLower

/-! ## clean_text (utils/validators.py lines 8–30) -/

/-- Model of `re.sub(r'\s+', ' ', text)`: replace every maximal run of whitespace by a
single space.  The flag records whether the previous character belonged to a
whitespace run already replaced. -/
def collapseWS : Bool → List Char → List Char
  | _, [] => []
  | prevWS, c :: cs =>
    if isPySpace c then
      if prevWS then collapseWS true cs
      else ' ' :: collapseWS true cs
    else c :: collapseWS false cs

/-- Python `str.strip()`: drop whitespace from both ends. -/
def pyStrip (l : List Char) : List Char :=
  List.rdropWhile isPySpace (List.dropWhile isPySpace l)

/-- Model of `clean_text` (validators.py lines 8–30): on falsy (empty) input return
`""`; otherwise collapse whitespace runs to single spaces, strip the ends,
then drop every character outside the kept class. -/
def clean_text (text : List Char) : List Char :=
  if text.isEmpty then []
  else (pyStrip (collapseWS false text)).filter isKeptChar

/-! ## extract_keywords (utils/validators.py lines 32–48) -/

/-- Boolean substring containment, Python's `needle in hay` on strings. -/
def isSubstrOf (needle hay : List Char) : Bool :=
  hay.tails.any (fun t => needle.isPrefixOf t)

/-- Model of `extract_keywords` (validators.py lines 32–48): on falsy (empty) text
return `[]`; otherwise keep, in order, the keywords `kw` of the list with
`kw.lower()` a substring of `text.lower()`. -/
def extract_keywords (text : List Char) (keyword_list : List (List Char)) :
    List (List Char) :=
  if text.isEmpty then []
  else
    let text_lower := pyLower text
    keyword_list.filter (fun kw => isSubstrOf (pyLower kw) text_lower)

/-! ## Fixed keyword tables (config/settings.py) -/

/-- Model of `Settings.MAINTENANCE_KEYWORDS` (settings.py lines 29–33), verbatim. -/
def MAINTENANCE_KEYWORDS : List (List Char) :=
  ["crack", "leak", "damage", "broken", "mold", "mould",
   "wall", "ceiling", "paint", "floor", "window", "door",
   "water", "damp", "stain", "peeling", "fixture", "plumbing"].map String.data

/-- Model of `Settings.TENANCY_KEYWORDS` (settings.py lines 35–39), verbatim. -/
def TENANCY_KEYWORDS : List (List Char) :=
  ["landlord", "tenant", "rent", "deposit", "evict", "eviction",
   "lease", "contract", "notice", "agreement", "rental",
   "tenancy", "security deposit", "vacate", "termination"].map String.data

/-- Model of `question_indicators` (router.py line 101), verbatim. -/
def QUESTION_INDICATORS : List (List Char) :=
  ["how", "what", "when", "where", "why", "can", "should",
   "is", "are", "do", "does"].map String.data

/-! ## classify_input (agents/router.py lines 13–49) -/

/-- The four input shapes stored in `state['input_type']`. -/
inductive InputType where
  | image_only
  | text_only
  | text_and_image
  | error
deriving DecidableEq, Repr

/-- Python truthiness of an `Optional[str]`: `None` and `""` are falsy. -/
def truthyStr : Option (List Char) → Bool
  | none => false
  | some s => !s.isEmpty

/-- The dict returned by `classify_input`: the computed shape and the cleaned
text (re-assigned to `None` when cleaning yields the empty string). -/
structure ClassifyOut where
  input_type : InputType
  text_query : Option (List Char)
deriving DecidableEq, Repr

/-- Model of `classify_input` (router.py lines 13–49): clean a truthy text query,
demote it to `None` if cleaning empties it, then classify by presence of
image and text, and echo the cleaned text back. -/
def classify_input (image_path text_query : Option (List Char)) : ClassifyOut :=
  let tq : Option (List Char) :=
    if truthyStr text_query then
      let cleaned := clean_text (text_query.getD [])
      if cleaned.isEmpty then none else some cleaned
    else text_query
  if truthyStr image_path && !truthyStr tq then ⟨InputType.image_only, tq⟩
  else if truthyStr tq && !truthyStr image_path then ⟨InputType.text_only, tq⟩
  else if truthyStr tq && truthyStr image_path then ⟨InputType.text_and_image, tq⟩
  else ⟨InputType.error, tq⟩

/-! ## route_to_agent (agents/router.py lines 51–115) -/

/-- The four routing destinations (graph node names). -/
inductive Route where
  | vision          -- "agent_1_vision"
  | faq             -- "agent_2_faq"
  | clarification   -- "clarification"
  | error           -- "error"
deriving DecidableEq, Repr

/-- The slice of the workflow state read by `route_to_agent`.  The outer
`Option` on `text_query` distinguishes an absent dict key (`none`) from a key
bound to Python `None` (`some none`). -/
structure RouterState where
  input_type : Option InputType
  text_query : Option (Option (List Char))
  image_path : Option (List Char)
  user_location : Option (List Char)

/-- The decision cascade of `route_to_agent` (router.py lines 67–115) on the
already lower-cased text, including the defensive fallback of line 115. -/
def routeLowered (input_type : InputType) (text_query : List Char) : Route :=
  if input_type = InputType.error then Route.error
  else if input_type = InputType.image_only then Route.vision
  else if input_type = InputType.text_and_image then Route.vision
  else if input_type = InputType.text_only then
    let maintenance_kw := extract_keywords text_query MAINTENANCE_KEYWORDS
    let tenancy_kw := extract_keywords text_query TENANCY_KEYWORDS
    if !tenancy_kw.isEmpty then Route.faq
    else if !maintenance_kw.isEmpty then Route.clarification
    else
      let is_question :=
        QUESTION_INDICATORS.any (fun ind => ind.isPrefixOf (pyStrip text_query))
          || text_query.contains '?'
      if is_question then Route.faq else Route.clarification
  else Route.error  -- fallback, router.py line 115

/-- Exception text of `None.lower()`.  (Python's message carries quotes around
the type and attribute names; they are immaterial and omitted.) -/
def noneLowerMsg : List Char :=
  ("AttributeError: NoneType object has no attribute lower").data

/-- Model of `route_to_agent` (router.py lines 51–115).  Line 61 fetches
`input_type` with default `'error'`; line 62 evaluates
`state.get('text_query', '').lower()` *before any branch*, which raises
`AttributeError` whenever the state stores `text_query = None`. -/
def route_to_agent (st : RouterState) : Except (List Char) Route :=
  let input_type := st.input_type.getD InputType.error
  match st.text_query.getD (some []) with
  | none => Except.error noneLowerMsg
  | some t => Except.ok (routeLowered input_type (pyLower t))

/-! ## Static messages (agents/prompts.py) -/

/-- ASCII apostrophe, kept out of string literals. -/
def apos : Char := Char.ofNat 39

/-- Model of `CLARIFICATION_PROMPT` (prompts.py lines 111–121), verbatim. -/
def CLARIFICATION_PROMPT : List Char :=
  ("I").data ++ [apos] ++
  ("d be happy to help you with property maintenance and troubleshooting!\n\nTo provide you with the most accurate assessment, I need to see the issue. Could you please:\n\n1. **Upload a clear photo** of the problem area\n2. **Describe the issue** you").data ++ [apos] ++
  ("re experiencing\n3. **Mention** when you first noticed it\n\nThis will help me give you specific, actionable advice for your property concern.\n\nWhat issue are you experiencing with your property?").data

/-- Model of `ERROR_MESSAGES['no_input']` (prompts.py line 124), verbatim. -/
def ERROR_MESSAGES_no_input : List Char :=
  ("I didn").data ++ [apos] ++
  ("t receive any input. Please provide either a question or upload an image.").data

/-! ## Handler nodes (graph/workflow.py, agents/vision_agent.py, agents/faq_agent.py)

Each LangGraph node returns a dict of state updates.  `NodeOut` records the
keys a node may set; `none` means the key is not in the returned dict. -/

structure NodeOut where
  agent_response : Option (List Char)
  agent_used : Option (List Char)
  needs_clarification : Option Bool
  detected_issues : Option (List (List Char))
  suggestions : Option (List (List Char))
  confidence_score : Option ℚ
  error_message : Option (List Char)
  error_type : Option (List Char)
deriving DecidableEq, Repr

/-- A `NodeOut` that sets none of the keys. -/
def NodeOut.empty : NodeOut :=
  ⟨none, none, none, none, none, none, none, none⟩

/-- Model of `issue_keywords` (vision_agent.py lines 101–102), verbatim. -/
def ISSUE_KEYWORDS : List (List Char) :=
  ["crack", "leak", "damage", "mold", "mould", "stain",
   "broken", "deterioration", "corrosion", "damp"].map String.data

/-- Model of `VisionAgent._extract_issues` (vision_agent.py lines 98–108): issue
keywords occurring in the lower-cased response, at most five.  (The source
round-trips the list through a Python `set`, which dedups — a no-op here as
the keyword list is duplicate-free — and leaves order unspecified; the model
keeps list order.) -/
def extract_issues (response_text : List Char) : List (List Char) :=
  (ISSUE_KEYWORDS.filter (fun kw => isSubstrOf kw (pyLower response_text))).take 5

/-- Line filter shared by both agents' `_extract_suggestions`: split the
response on newlines, strip each line, keep lines containing a marker with
20 < length < 200, at most five. -/
def suggestion_lines (markers : List (List Char)) (response_text : List Char) :
    List (List Char) :=
  (((response_text.splitOn '\n').map pyStrip).filter
    (fun line =>
      markers.any (fun m => isSubstrOf m (pyLower line))
        && decide (20 < line.length) && decide (line.length < 200))).take 5

/-- Marker words of `VisionAgent._extract_suggestions` (vision_agent.py line 118). -/
def VISION_SUGGESTION_MARKERS : List (List Char) :=
  ["recommend", "should", "suggest", "contact", "call"].map String.data

/-- Marker words of `FAQAgent._extract_suggestions` (faq_agent.py line 102). -/
def FAQ_SUGGESTION_MARKERS : List (List Char) :=
  ["should", "recommend", "consider", "contact", "document", "keep", "file"].map String.data

/-- Model of `location_indicators` of `FAQAgent._check_needs_location` (faq_agent.py
lines 87–90), verbatim. -/
def LOCATION_INDICATORS : List (List Char) :=
  ["location", "jurisdiction", "state", "country",
   "where you live", "your area", "depends on"].map String.data

/-- Model of `FAQAgent._check_needs_location` (faq_agent.py lines 82–92). -/
def check_needs_location (response : List Char) (user_location : Option (List Char)) :
    Bool :=
  if truthyStr user_location then false
  else LOCATION_INDICATORS.any (fun ind => isSubstrOf ind (pyLower response))

/-- Model of `VisionAgent._error_response` (vision_agent.py lines 124–132). -/
def visionErrorResponse (error_message : List Char) : NodeOut :=
  { NodeOut.empty with
    agent_response := some error_message
    agent_used := some (("agent_1_vision").data)
    error_message := some error_message
    error_type := some (("VisionAgentError").data)
    needs_clarification := some true }

/-- Model of `FAQAgent._error_response` (faq_agent.py lines 108–116). -/
def faqErrorResponse (error_message : List Char) : NodeOut :=
  { NodeOut.empty with
    agent_response := some error_message
    agent_used := some (("agent_2_faq").data)
    error_message := some error_message
    error_type := some (("FAQAgentError").data)
    needs_clarification := some true }

/-- Outcomes of the opaque external capabilities consumed by the vision
handler: image validation (`validate_image`), image encoding (`encode_image`)
and the remote vision-model call.  An `Except.error` models the capability
failing (returning an error tuple, or raising). -/
structure VisionCaps where
  validateRes : Except (List Char) Unit
  encodeRes : Except (List Char) (List Char)
  modelRes : Except (List Char) (List Char)
deriving Repr

/-- Model of `VisionAgent.process` (vision_agent.py lines 25–96).  The whole body is
wrapped in `try/except`; every failure path degrades to `_error_response`, so
the node is total.  Prompt assembly only feeds the opaque model call and does
not influence the returned fields. -/
def visionProcess (caps : VisionCaps)
    (image_path base64_image : Option (List Char)) : NodeOut :=
  if !truthyStr image_path then
    visionErrorResponse (("No image provided").data)
  else
    match caps.validateRes with
    | Except.error msg => visionErrorResponse msg
    | Except.ok _ =>
      let enc : Except (List Char) (List Char) :=
        if !truthyStr base64_image then caps.encodeRes
        else Except.ok (base64_image.getD [])
      match enc with
      | Except.error e =>
        visionErrorResponse ((("Failed to process image: ").data) ++ e)
      | Except.ok _b64 =>
        match caps.modelRes with
        | Except.error e =>
          visionErrorResponse ((("Error analyzing image: ").data) ++ e)
        | Except.ok content =>
          { NodeOut.empty with
            agent_response := some content
            agent_used := some (("agent_1_vision").data)
            detected_issues := some (extract_issues content)
            suggestions := some (suggestion_lines VISION_SUGGESTION_MARKERS content)
            confidence_score := some (85/100)
            needs_clarification := some false }

/-- Model of `FAQAgent.process` (faq_agent.py lines 24–80).  Also fully guarded by
`try/except`: a failing model call degrades to `_error_response`. -/
def faqProcess (modelRes : Except (List Char) (List Char))
    (text_query user_location : Option (Option (List Char))) : NodeOut :=
  let user_query : Option (List Char) := text_query.getD (some [])
  if !truthyStr user_query then
    faqErrorResponse (("No question provided").data)
  else
    let loc : Option (List Char) := user_location.getD (some [])
    match modelRes with
    | Except.error e =>
      faqErrorResponse ((("Error processing question: ").data) ++ e)
    | Except.ok content =>
      { NodeOut.empty with
        agent_response := some content
        agent_used := some (("agent_2_faq").data)
        suggestions := some (suggestion_lines FAQ_SUGGESTION_MARKERS content)
        confidence_score := some (9/10)
        needs_clarification := some (check_needs_location content loc) }

/-- Model of `clarification_node` (workflow.py lines 32–40). -/
def clarificationNode : NodeOut :=
  { NodeOut.empty with
    agent_response := some CLARIFICATION_PROMPT
    agent_used := some (("clarification").data)
    needs_clarification := some true
    confidence_score := some 1 }

/-- Model of `error_node` (workflow.py lines 42–56).  Falls back to the static
`no_input` message when the state carries no error message. -/
def errorNode (error_message error_type : Option (Option (List Char))) : NodeOut :=
  let stored : Option (List Char) := error_message.getD none
  let msg := if truthyStr stored then stored.getD [] else ERROR_MESSAGES_no_input
  { NodeOut.empty with
    agent_response := some msg
    agent_used := some (("error").data)
    error_message := some msg
    error_type := some ((error_type.getD none).getD (("UnknownError").data))
    needs_clarification := some true }

/-! ## Workflow and entry point (graph/workflow.py lines 58–156) -/

/-- A validated `UserQuery` (models/inputs.py) after
`model_dump(exclude_none=True)`: the fields the workflow's initial state may
carry. -/
structure UserRequest where
  text_query : Option (List Char)
  image_path : Option (List Char)
  user_location : Option (List Char)
deriving Repr

/-- Outcomes of all opaque external capabilities for one invocation. -/
structure Caps where
  validateRes : Except (List Char) Unit
  encodeRes : Except (List Char) (List Char)
  visionModelRes : Except (List Char) (List Char)
  faqModelRes : Except (List Char) (List Char)
deriving Repr

/-- The compiled graph (workflow.py lines 58–102):
`START → classify_input → route_to_agent → {node} → END`.  The dict returned
by `classify_input` is merged into the state, so the router sees
`text_query` *present* (possibly bound to `None`) and the chosen node sees the
cleaned text.  An uncaught exception in a node escapes `invoke` as
`Except.error`. -/
def workflow_invoke (caps : Caps) (req : UserRequest) :
    Except (List Char) NodeOut :=
  let c := classify_input req.image_path req.text_query
  let st : RouterState :=
    { input_type := some c.input_type
      text_query := some c.text_query
      image_path := req.image_path
      user_location := req.user_location }
  match route_to_agent st with
  | Except.error e => Except.error e
  | Except.ok r =>
    Except.ok (match r with
      | Route.vision =>
        visionProcess ⟨caps.validateRes, caps.encodeRes, caps.visionModelRes⟩
          req.image_path none
      | Route.faq =>
        faqProcess caps.faqModelRes (some c.text_query) (req.user_location.map some)
      | Route.clarification => clarificationNode
      | Route.error => errorNode none none)

/-- The structured result `AgentResponse` (models/outputs.py lines 8–32). -/
structure AgentResponse where
  response : List Char
  agent_used : List Char
  needs_clarification : Bool
  detected_issues : Option (List (List Char))
  confidence_score : Option ℚ
  suggestions : Option (List (List Char))
deriving DecidableEq, Repr

/-- Model of `RealEstateChatbot.process_query` (workflow.py lines 113–156): invoke the
workflow, assemble an `AgentResponse` from the final state with the `get`
defaults of lines 137–144; any exception is caught at the top and converted
into the generic error response of lines 149–156. -/
def process_query (caps : Caps) (req : UserRequest) : AgentResponse :=
  match workflow_invoke caps req with
  | Except.ok result =>
    { response := result.agent_response.getD (("No response generated").data)
      agent_used := result.agent_used.getD (("error").data)
      needs_clarification := result.needs_clarification.getD false
      detected_issues := result.detected_issues
      confidence_score := result.confidence_score
      suggestions := result.suggestions }
  | Except.error e =>
    { response := ("I encountered an error: ").data ++ e ++ (". Please try again.").data
      agent_used := ("error").data
      needs_clarification := true
      detected_issues := none
      confidence_score := some 0
      suggestions := none }

/-! ## Bridging lemmas between the executable booleans and Mathlib relations -/

theorem isSubstrOf_iff {needle hay : List Char} :
    isSubstrOf needle hay = true ↔ needle <:+: hay := by
  unfold isSubstrOf
  rw [List.any_eq_true, List.infix_iff_prefix_suffix]
  constructor
  · rintro ⟨t, ht, hp⟩
    exact ⟨t, List.isPrefixOf_iff_prefix.mp hp, (List.mem_tails _ _).mp ht⟩
  · rintro ⟨t, hp, hs⟩
    exact ⟨t, (List.mem_tails _ _).mpr hs, List.isPrefixOf_iff_prefix.mpr hp⟩

theorem isSubstrOf_eq_decide (needle hay : List Char) :
    isSubstrOf needle hay = decide (needle <:+: hay) := by
  by_cases h : needle <:+: hay
  · simp [h, isSubstrOf_iff.mpr h]
  · rw [decide_eq_false h]
    exact Bool.eq_false_iff.mpr (fun hc => h (isSubstrOf_iff.mp hc))

theorem isPrefixOf_eq_decide (l₁ l₂ : List Char) :
    l₁.isPrefixOf l₂ = decide (l₁ <+: l₂) := by
  by_cases h : l₁ <+: l₂
  · simp [h, List.isPrefixOf_iff_prefix.mpr h]
  · rw [decide_eq_false h]
    exact Bool.eq_false_iff.mpr (fun hc => h ( List.isPrefixOf_iff_prefix.mp hc))

theorem contains_eq_decide_mem (x : List Char) (c : Char) :
    x.contains c = decide (c ∈ x) := by
  by_cases h : c ∈ x
  · simp [List.contains, h, List.elem_iff.mpr h]
  · rw [decide_eq_false h]
    exact Bool.eq_false_iff.mpr (fun hc => h (List.elem_iff.mp hc))

theorem not_isEmpty_filter_eq_any {α : Type} (p : α → Bool) (l : List α) :
    (!(l.filter p).isEmpty) = l.any p := by
  induction l with
  | nil => rfl
  | cons a l ih =>
    by_cases h : p a <;> simp [List.filter_cons, h, ih]

/-! ## The routing cascade as the specification states it (for C2) -/

/-- The text-only short-circuit cascade exactly as the specification words it,
applied to the normalized lower-cased text `tl`: if any tenancy keyword
matches (case-insensitive substring, per the KeywordMatcher contract) →
`faq`; else if any maintenance keyword matches → `clarification`; else if the
stripped text starts with a question word or the text contains a literal
question mark → `faq`; else `clarification`. -/
def claimTextOnlyCascade (tl : List Char) : Route :=
  if TENANCY_KEYWORDS.any (fun kw => decide (pyLower kw <:+: pyLower tl)) then
    Route.faq
  else if MAINTENANCE_KEYWORDS.any (fun kw => decide (pyLower kw <:+: pyLower tl)) then
    Route.clarification
  else if QUESTION_INDICATORS.any (fun q => decide (q <+: pyStrip tl))
      || decide ('?' ∈ tl) then
    Route.faq
  else
    Route.clarification

theorem routeLowered_text_only_eq (x : List Char) :
    routeLowered InputType.text_only x = claimTextOnlyCascade x := by
  by_cases hx : x = []
  · subst hx; decide
  · have hx' : x.isEmpty = false := List.isEmpty_eq_false.mpr hx
    unfold routeLowered claimTextOnlyCascade extract_keywords
    rw [if_neg (by decide), if_neg (by decide), if_neg (by decide), if_pos rfl]
    simp only [hx', Bool.false_eq_true, if_false, not_isEmpty_filter_eq_any,
      isSubstrOf_eq_decide, isPrefixOf_eq_decide, contains_eq_decide_mem]

/-- C2.  For every text-only input, the router applies exactly the claimed
short-circuit cascade on the normalized lower-cased text: tenancy keywords
(→ `faq`, taking precedence over maintenance keywords), then maintenance
keywords (→ `clarification`), then the interrogative test — stripped text
starting with one of the eleven question words, or a literal `?` anywhere —
(→ `faq`), else `clarification`. -/
theorem route_text_only_is_claimed_cascade
    (t : List Char) (ip ul : Option (List Char)) :
    route_to_agent ⟨some InputType.text_only, some (some t), ip, ul⟩ =
      Except.ok (claimTextOnlyCascade (pyLower t)) := by
  show Except.ok (routeLowered InputType.text_only (pyLower t)) = _
  rw [routeLowered_text_only_eq]

/-- C1 (code-bug demonstration).  A state actually produced by classification for
an image-only request stores `text_query = None`; on that state the router
does not return the vision destination — line 62's
`state.get('text_query', '').lower()` raises `AttributeError` instead. -/
theorem router_raises_on_classified_image_only :
    classify_input (some (("/some/path.jpg").data)) none =
      ⟨InputType.image_only, none⟩ ∧
    route_to_agent
      ⟨some InputType.image_only, some none, some (("/some/path.jpg").data), none⟩ =
      Except.error noneLowerMsg :=
  ⟨rfl, rfl⟩

/-- C4 (code-bug demonstration).  The router is not total over its declared domain
(shape one of the four enum values, text an optional string): with shape
`error` and text `None` it raises instead of returning a route. -/
theorem router_raises_on_error_shape_none_text :
    route_to_agent ⟨some InputType.error, some none, none, none⟩ =
      Except.error noneLowerMsg :=
  rfl

/-- C9.  `classify_input` and `route_to_agent` are pure and deterministic:
the classifier is a function of exactly its two inputs, and the router's
decision depends on nothing in the state beyond `input_type` and
`text_query` — no hidden state or randomness. -/
theorem classify_route_deterministic (img txt : Option (List Char))
    (s₁ s₂ : RouterState) :
    classify_input img txt = classify_input img txt ∧
    (s₁.input_type = s₂.input_type → s₁.text_query = s₂.text_query →
      route_to_agent s₁ = route_to_agent s₂) := by
  refine ⟨rfl, fun h₁ h₂ => ?_⟩
  unfold route_to_agent
  rw [h₁, h₂]

theorem classify_route_deterministic_witness :
    route_to_agent ⟨some InputType.text_only,
        some (some (("is the rent due").data)), some (("/a.jpg").data),
        some (("Berlin").data)⟩ =
      route_to_agent ⟨some InputType.text_only,
        some (some (("is the rent due").data)), none, none⟩ :=
  (classify_route_deterministic none none _ _).2 rfl rfl

/-- C10.  The router's decision is invariant under letter-case changes of the
text: the state's text is lower-cased before any keyword, question-word or
`?` check, so any two case-variants (same `lower()` image) route alike, for
every shape and whatever the remaining state fields are. -/
theorem route_case_invariant (it : Option InputType) (t t' : List Char)
    (ip ul ip' ul' : Option (List Char)) :
    pyLower t = pyLower t' →
    route_to_agent ⟨it, some (some t), ip, ul⟩ =
      route_to_agent ⟨it, some (some t'), ip', ul'⟩ := by
  intro h
  show Except.ok (routeLowered (it.getD InputType.error) (pyLower t)) =
    Except.ok (routeLowered (it.getD InputType.error) (pyLower t'))
  rw [h]

theorem route_case_invariant_witness :
    route_to_agent ⟨some InputType.text_only,
        some (some (("LANDLORD TROUBLE").data)), none, none⟩ =
      route_to_agent ⟨some InputType.text_only,
        some (some (("landlord trouble").data)), none, none⟩ :=
  route_case_invariant _ _ _ _ _ _ _ (by decide)

/-! ## The classification decision table as the specification states it (C5) -/

/-- Presence of text per the claim: text is absent when it is missing or when
normalization yields the empty string. -/
def claimTextPresent : Option (List Char) → Bool
  | none => false
  | some s => !(clean_text s).isEmpty

/-- The claimed decision table over presence of image and text. -/
def claimShape : Bool → Bool → InputType
  | true,  false => InputType.image_only
  | false, true  => InputType.text_only
  | true,  true  => InputType.text_and_image
  | false, false => InputType.error

/-- C5 counterexample.  A text of only punctuation need not classify as
`error`: `"???"` consists solely of punctuation, yet every character survives
normalization (the kept class retains `- . , ! ? ' " ( )`), so with no image
the shape is `text_only`, not `error` as the claim states. -/
theorem punctuation_only_text_not_error :
    (classify_input none (some (("???").data))).input_type ≠ InputType.error ∧
    (classify_input none (some (("???").data))).input_type = InputType.text_only := by
  decide

/-- C5 (amended).  Classification follows the claimed decision table, with
text counted as present exactly when normalization yields a nonempty string,
and the normalized text — not the raw text — echoed back (demoted to absent
when normalization empties it).  But only characters *dropped* by
normalization can empty a text: a text of whitespace and characters outside
the kept class (e.g. `"@#$"`) classifies as `error` when no image is present,
while retained punctuation such as `"???"` counts as text. -/
theorem classify_follows_decision_table (img txt : Option (List Char)) :
    (classify_input img txt).input_type =
      claimShape (truthyStr img) (claimTextPresent txt) ∧
    (∀ s, txt = some s → s ≠ [] →
      (classify_input img txt).text_query =
        (if (clean_text s).isEmpty then none else some (clean_text s))) ∧
    (classify_input none (some (("@#$").data))).input_type = InputType.error := by
  refine ⟨?_, ?_, by decide⟩
  · unfold classify_input claimTextPresent claimShape truthyStr
    cases txt with
    | none =>
      cases img with
      | none => rfl
      | some i => cases hi : i.isEmpty <;> simp [hi]
    | some s =>
      cases hs : s.isEmpty with
      | true =>
        have : s = [] := List.isEmpty_iff.mp (by rw [hs])
        subst this
        cases img with
        | none => rfl
        | some i => cases hi : i.isEmpty <;> simp [hi, clean_text]
      | false =>
        cases hc : (clean_text s).isEmpty with
        | true =>
          cases img with
          | none => simp [hs, hc]
          | some i => cases hi : i.isEmpty <;> simp [hs, hc, hi]
        | false =>
          cases img with
          | none => simp [hs, hc]
          | some i => cases hi : i.isEmpty <;> simp [hs, hc, hi]
  · rintro s rfl hs
    have hs' : s.isEmpty = false := List.isEmpty_eq_false.mpr hs
    unfold classify_input truthyStr
    cases hc : (clean_text s).isEmpty with
    | true =>
      cases img with
      | none => simp [hs', hc]
      | some i => cases hi : i.isEmpty <;> simp [hs', hc, hi]
    | false =>
      cases img with
      | none => simp [hs', hc]
      | some i => cases hi : i.isEmpty <;> simp [hs', hc, hi]

theorem classify_follows_decision_table_witness :
    (classify_input (some (("/a.jpg").data)) (some (("  What is   this? ").data))).input_type =
      claimShape true true ∧
    (classify_input (some (("/a.jpg").data)) (some (("  What is   this? ").data))).text_query =
      some (("What is this?").data) := by
  refine ⟨(classify_follows_decision_table _ _).1.trans (by decide), ?_⟩
  have h := (classify_follows_decision_table (some (("/a.jpg").data))
      (some (("  What is   this? ").data))).2.1 _ rfl (by decide)
  rw [h]
  decide

/-! ## KeywordMatcher contract (C7) -/

/-- C7 counterexample.  The empty keyword occurs as a (case-insensitive)
substring of the empty text, yet `extract_keywords` returns the empty result
for empty text — so "returns exactly the keywords that occur as
case-insensitive substrings of the text" is violated at that edge. -/
theorem empty_text_empty_keyword_not_returned :
    pyLower ([] : List Char) <:+: pyLower ([] : List Char) ∧
    ([] : List Char) ∈ [([] : List Char)] ∧
    extract_keywords [] [([] : List Char)] = [] := by
  exact ⟨List.infix_refl _, List.mem_singleton.mpr rfl, rfl⟩

/-- C7 (amended).  For nonempty text, `extract_keywords` returns exactly the
keywords occurring as case-insensitive substrings of the text (no
tokenization or stemming), preserving the keyword list's order (the result is
a sublist of the keyword list); empty text yields the empty result — even
when the keyword set contains the empty string, which vacuously occurs in
every text; and case-variants of the text (equal `lower()` images) produce
identical match results. -/
theorem extract_keywords_contract (text : List Char) (kws : List (List Char)) :
    (text ≠ [] → ∀ kw, kw ∈ extract_keywords text kws ↔
      kw ∈ kws ∧ pyLower kw <:+: pyLower text) ∧
    List.Sublist (extract_keywords text kws) kws ∧
    extract_keywords [] kws = [] ∧
    (∀ t', pyLower t' = pyLower text →
      extract_keywords t' kws = extract_keywords text kws) := by
  refine ⟨?_, ?_, rfl, ?_⟩
  · intro ht kw
    have ht' : text.isEmpty = false := List.isEmpty_eq_false.mpr ht
    unfold extract_keywords
    simp only [ht', Bool.false_eq_true, if_false, List.mem_filter,
      isSubstrOf_iff]
  · unfold extract_keywords
    cases text.isEmpty
    · simp
    · simp
  · intro t' h
    cases t' with
    | nil =>
      have : text = [] := by
        have := h.symm
        simpa [pyLower, List.map_eq_nil_iff] using this
      rw [this]
    | cons a l =>
      cases text with
      | nil => simp [pyLower] at h
      | cons b m =>
        unfold extract_keywords
        simp only [List.isEmpty_cons, h]

theorem extract_keywords_contract_witness :
    (("landlord").data ∈
        extract_keywords (("My LANDLORD!").data) TENANCY_KEYWORDS ↔
      ("landlord").data ∈ TENANCY_KEYWORDS ∧
        pyLower (("landlord").data) <:+: pyLower (("My LANDLORD!").data)) ∧
    extract_keywords (("LANDLORD").data) TENANCY_KEYWORDS =
      extract_keywords (("landlord").data) TENANCY_KEYWORDS :=
  ⟨(extract_keywords_contract (("My LANDLORD!").data) TENANCY_KEYWORDS).1
      (by decide) _,
   (extract_keywords_contract (("landlord").data) TENANCY_KEYWORDS).2.2.2 _
      (by decide)⟩

/-! ## clean_text postconditions (C6) -/

/-- No two adjacent whitespace characters (every whitespace run has length
one). -/
def noTwoAdjWS : List Char → Bool
  | [] => true
  | [_] => true
  | a :: b :: rest => !(isPySpace a && isPySpace b) && noTwoAdjWS (b :: rest)

/-- Neither the first nor the last character is whitespace. -/
def noEdgeWS (l : List Char) : Bool :=
  (match l.head? with | none => true | some c => !isPySpace c) &&
  (match l.getLast? with | none => true | some c => !isPySpace c)

theorem noTwoAdjWS_iff (l : List Char) :
    noTwoAdjWS l = true ↔
      List.Chain' (fun a b => ¬(isPySpace a = true ∧ isPySpace b = true)) l := by
  induction l with
  | nil => simp [noTwoAdjWS]
  | cons a l ih =>
    cases l with
    | nil => simp [noTwoAdjWS]
    | cons b rest =>
      rw [List.chain'_cons, ← ih]
      have he : noTwoAdjWS (a :: b :: rest) =
          (!(isPySpace a && isPySpace b) && noTwoAdjWS (b :: rest)) := rfl
      rw [he, Bool.and_eq_true, Bool.not_eq_true', Bool.and_eq_false_iff]
      constructor
      · rintro ⟨h1, h2⟩
        exact ⟨fun hc => by rcases h1 with h | h <;> simp [hc.1, hc.2] at h, h2⟩
      · rintro ⟨h1, h2⟩
        refine ⟨?_, h2⟩
        by_cases ha : isPySpace a = true
        · by_cases hb : isPySpace b = true
          · exact absurd ⟨ha, hb⟩ h1
          · exact Or.inr (Bool.not_eq_true _ ▸ hb)
        · exact Or.inl (Bool.not_eq_true _ ▸ ha)

theorem mem_collapseWS : ∀ (l : List Char) (b : Bool) (c : Char),
    c ∈ collapseWS b l → c = ' ' ∨ c ∈ l := by
  intro l
  induction l with
  | nil => intro b c h; simp [collapseWS] at h
  | cons a l ih =>
    intro b c h
    unfold collapseWS at h
    by_cases ha : isPySpace a = true
    · rw [if_pos ha] at h
      cases b with
      | false =>
        simp only [Bool.false_eq_true, if_false] at h
        rcases List.mem_cons.mp h with h1 | h2
        · exact Or.inl h1
        · rcases ih true c h2 with h3 | h4
          · exact Or.inl h3
          · exact Or.inr (List.mem_cons_of_mem _ h4)
      | true =>
        simp only [if_true] at h
        rcases ih true c h with h3 | h4
        · exact Or.inl h3
        · exact Or.inr (List.mem_cons_of_mem _ h4)
    · rw [if_neg ha] at h
      rcases List.mem_cons.mp h with h1 | h2
      · exact Or.inr (h1 ▸ List.mem_cons_self _ _)
      · rcases ih false c h2 with h3 | h4
        · exact Or.inl h3
        · exact Or.inr (List.mem_cons_of_mem _ h4)

theorem collapseWS_head_not_space : ∀ (l : List Char) (c : Char),
    (collapseWS true l).head? = some c → isPySpace c = false := by
  intro l
  induction l with
  | nil => intro c h; simp [collapseWS] at h
  | cons a l ih =>
    intro c h
    unfold collapseWS at h
    by_cases ha : isPySpace a = true
    · rw [if_pos ha, if_pos rfl] at h
      exact ih c h
    · rw [if_neg ha] at h
      simp only [List.head?_cons, Option.some.injEq] at h
      rw [← h]
      exact Bool.not_eq_true _ ▸ ha

theorem chain'_collapseWS : ∀ (l : List Char) (b : Bool),
    List.Chain' (fun a c => ¬(isPySpace a = true ∧ isPySpace c = true))
      (collapseWS b l) := by
  intro l
  induction l with
  | nil => intro b; simp [collapseWS]
  | cons a l ih =>
    intro b
    unfold collapseWS
    by_cases ha : isPySpace a = true
    · rw [if_pos ha]
      cases b with
      | true => simpa using ih true
      | false =>
        simp only [Bool.false_eq_true, if_false]
        rw [List.chain'_cons']
        refine ⟨?_, ih true⟩
        intro y hy hcontra
        have := collapseWS_head_not_space l y (Option.mem_def.mp hy)
        rw [this] at hcontra
        exact Bool.false_ne_true hcontra.2
    · rw [if_neg ha]
      rw [List.chain'_cons']
      exact ⟨fun y _ hcontra => ha hcontra.1, ih false⟩

theorem head?_dropWhile_not (p : Char → Bool) : ∀ (l : List Char) (c : Char),
    (l.dropWhile p).head? = some c → p c = false := by
  intro l
  induction l with
  | nil => intro c h; simp at h
  | cons a l ih =>
    intro c h
    by_cases ha : p a = true
    · rw [List.dropWhile_cons_of_pos ha] at h
      exact ih c h
    · rw [List.dropWhile_cons_of_neg ha] at h
      simp only [List.head?_cons, Option.some.injEq] at h
      rw [← h]
      exact Bool.not_eq_true _ ▸ ha

theorem head?_eq_of_pre {l₁ l₂ : List Char} (h : l₁ <+: l₂) (hne : l₁ ≠ []) :
    l₂.head? = l₁.head? := by
  obtain ⟨t, rfl⟩ := h
  cases l₁ with
  | nil => exact absurd rfl hne
  | cons a l => rfl

theorem pyStrip_head_not_space (l : List Char) (c : Char)
    (h : (pyStrip l).head? = some c) : isPySpace c = false := by
  have hne : pyStrip l ≠ [] := by
    intro he; rw [he] at h; simp at h
  have hpre : pyStrip l <+: l.dropWhile isPySpace :=
    List.rdropWhile_prefix isPySpace (l.dropWhile isPySpace)
  have heq := head?_eq_of_pre hpre hne
  exact head?_dropWhile_not isPySpace l c (heq.trans h)

theorem pyStrip_last_not_space (l : List Char) (c : Char)
    (h : (pyStrip l).getLast? = some c) : isPySpace c = false := by
  have hne : pyStrip l ≠ [] := by
    intro he; rw [he] at h; simp at h
  have hlast := List.rdropWhile_last_not isPySpace (l.dropWhile isPySpace) hne
  rw [List.getLast?_eq_getLast_of_ne_nil hne, Option.some.injEq] at h
  rw [← h]
  exact Bool.not_eq_true _ ▸ hlast

theorem noEdgeWS_pyStrip (m : List Char) : noEdgeWS (pyStrip m) = true := by
  unfold noEdgeWS
  rw [Bool.and_eq_true]
  constructor
  · cases hh : (pyStrip m).head? with
    | none => rfl
    | some c => simp [pyStrip_head_not_space m c hh]
  · cases hg : (pyStrip m).getLast? with
    | none => rfl
    | some c => simp [pyStrip_last_not_space m c hg]

theorem chain'_pyStrip {R : Char → Char → Prop} {l : List Char}
    (h : List.Chain' R l) : List.Chain' R (pyStrip l) :=
  List.Chain'.prefix (h.suffix (List.dropWhile_suffix _))
    ( List.rdropWhile_prefix isPySpace (l.dropWhile isPySpace))

theorem mem_pyStrip {l : List Char} {c : Char} (h : c ∈ pyStrip l) : c ∈ l :=
  (List.dropWhile_suffix isPySpace).sublist.subset
    (( List.rdropWhile_prefix isPySpace (l.dropWhile isPySpace)).sublist.subset h)

/-- C6 counterexample.  The claimed postconditions fail together: the
character filter runs *after* whitespace collapsing and stripping, so
removing a dropped character can re-create a leading space
(`clean_text "@ a" = " a"`) or an internal double space
(`clean_text "a @ b" = "a  b"`). -/
theorem clean_text_postconditions_fail :
    noEdgeWS (clean_text (("@ a").data)) = false ∧
    noTwoAdjWS (clean_text (("a @ b").data)) = false := by
  decide

/-- C6 (amended).  `clean_text` always returns a string of characters from
the kept class (word characters, whitespace, and `- . , ! ? ' " ( )`); and
*when the input contains no dropped characters* the output additionally has
every whitespace run collapsed to a single space and no leading or trailing
whitespace.  (When characters are dropped, the collapse/trim postconditions
can be violated, as the counterexample shows.) -/
theorem clean_text_postconditions (l : List Char) :
    (∀ c ∈ clean_text l, isKeptChar c = true) ∧
    ((∀ c ∈ l, isKeptChar c = true) →
      noTwoAdjWS (clean_text l) = true ∧ noEdgeWS (clean_text l) = true) := by
  constructor
  · intro c hc
    unfold clean_text at hc
    by_cases hl : l.isEmpty = true
    · rw [if_pos hl] at hc; simp at hc
    · rw [if_neg hl] at hc
      exact (List.mem_filter.mp hc).2
  · intro h
    by_cases hl : l.isEmpty = true
    · unfold clean_text; rw [if_pos hl]; exact ⟨rfl, rfl⟩
    · have hall : ∀ c ∈ pyStrip (collapseWS false l), isKeptChar c = true := by
        intro c hc
        rcases mem_collapseWS l false c (mem_pyStrip hc) with h1 | h2
        · rw [h1]; decide
        · exact h c h2
      have hclean : clean_text l = pyStrip (collapseWS false l) := by
        unfold clean_text
        rw [if_neg hl, List.filter_eq_self.mpr hall]
      refine ⟨?_, by rw [hclean]; exact noEdgeWS_pyStrip _⟩
      rw [hclean, noTwoAdjWS_iff]
      exact chain'_pyStrip (chain'_collapseWS l false)

theorem clean_text_postconditions_witness :
    (∀ c ∈ clean_text (("  a  b ").data), isKeptChar c = true) ∧
    (noTwoAdjWS (clean_text (("  a  b ").data)) = true ∧
      noEdgeWS (clean_text (("  a  b ").data)) = true) :=
  ⟨(clean_text_postconditions (("  a  b ").data)).1,
   (clean_text_postconditions (("  a  b ").data)).2 (by decide)⟩

/-! ## Workflow-level claims (C3, C8) -/

/-- The route the workflow attempts for a request: classification, merge of
the returned dict into the state, then the routing decision (the scrutinee of
`add_conditional_edges`, workflow.py lines 81–90). -/
def routedTo (req : UserRequest) : Except (List Char) Route :=
  let c := classify_input req.image_path req.text_query
  route_to_agent
    { input_type := some c.input_type
      text_query := some c.text_query
      image_path := req.image_path
      user_location := req.user_location }

theorem visionProcess_agent_used (vc : VisionCaps) (ip b : Option (List Char)) :
    (visionProcess vc ip b).agent_used = some (("agent_1_vision").data) := by
  unfold visionProcess
  cases h1 : truthyStr ip
  · simp [h1, visionErrorResponse, NodeOut.empty]
  · cases hv : vc.validateRes with
    | error msg => simp [h1, visionErrorResponse, NodeOut.empty]
    | ok u =>
      cases h2 : truthyStr b
      · cases he : vc.encodeRes with
        | error e => simp [h1, h2, visionErrorResponse, NodeOut.empty]
        | ok bb =>
          cases hm : vc.modelRes with
          | error e => simp [h1, h2, visionErrorResponse, NodeOut.empty]
          | ok c => simp [h1, h2, NodeOut.empty]
      · cases hm : vc.modelRes with
        | error e => simp [h1, h2, visionErrorResponse, NodeOut.empty]
        | ok c => simp [h1, h2, NodeOut.empty]

theorem visionProcess_fail_clarifies (vc : VisionCaps)
    (ip b : Option (List Char)) (e : List Char)
    (hm : vc.modelRes = Except.error e) :
    (visionProcess vc ip b).needs_clarification = some true := by
  unfold visionProcess
  cases h1 : truthyStr ip
  · simp [h1, visionErrorResponse, NodeOut.empty]
  · cases hv : vc.validateRes with
    | error msg => simp [h1, visionErrorResponse, NodeOut.empty]
    | ok u =>
      cases h2 : truthyStr b
      · cases he : vc.encodeRes with
        | error e2 => simp [h1, h2, visionErrorResponse, NodeOut.empty]
        | ok bb => simp [h1, h2, hm, visionErrorResponse, NodeOut.empty]
      · simp [h1, h2, hm, visionErrorResponse, NodeOut.empty]

theorem faqProcess_agent_used (mr : Except (List Char) (List Char))
    (tq loc : Option (Option (List Char))) :
    (faqProcess mr tq loc).agent_used = some (("agent_2_faq").data) := by
  unfold faqProcess
  cases h1 : truthyStr (tq.getD (some []))
  · simp [h1, faqErrorResponse, NodeOut.empty]
  · cases hm : mr with
    | error e => simp [h1, faqErrorResponse, NodeOut.empty]
    | ok c => simp [h1, NodeOut.empty]

theorem faqProcess_fail_clarifies (mr : Except (List Char) (List Char))
    (tq loc : Option (Option (List Char))) (e : List Char)
    (hm : mr = Except.error e) :
    (faqProcess mr tq loc).needs_clarification = some true := by
  subst hm
  unfold faqProcess
  cases h1 : truthyStr (tq.getD (some []))
  · simp [h1, faqErrorResponse, NodeOut.empty]
  · simp [h1, faqErrorResponse, NodeOut.empty]

/-- C3.  `process_query` never propagates an exception: for every request and
every outcome of the external capabilities it returns a well-formed
`AgentResponse` (its `agent_used` is one of the four handler names); and a
handler-capability failure is caught at the handler boundary: if the request
routed to the vision (resp. faq) handler and that handler's model call threw,
the returned result still carries the matching handler name with
`needs_clarification = true`. -/
theorem process_query_resilient (caps : Caps) (req : UserRequest) (e : List Char) :
    ((process_query caps req).agent_used = ("agent_1_vision").data ∨
     (process_query caps req).agent_used = ("agent_2_faq").data ∨
     (process_query caps req).agent_used = ("clarification").data ∨
     (process_query caps req).agent_used = ("error").data) ∧
    (routedTo req = Except.ok Route.vision →
      caps.visionModelRes = Except.error e →
      (process_query caps req).agent_used = ("agent_1_vision").data ∧
      (process_query caps req).needs_clarification = true) ∧
    (routedTo req = Except.ok Route.faq →
      caps.faqModelRes = Except.error e →
      (process_query caps req).agent_used = ("agent_2_faq").data ∧
      (process_query caps req).needs_clarification = true) := by
  have key : workflow_invoke caps req =
      (match routedTo req with
       | Except.error err => Except.error err
       | Except.ok r =>
         Except.ok (match r with
           | Route.vision =>
             visionProcess ⟨caps.validateRes, caps.encodeRes, caps.visionModelRes⟩
               req.image_path none
           | Route.faq =>
             faqProcess caps.faqModelRes
               (some (classify_input req.image_path req.text_query).text_query)
               (req.user_location.map some)
           | Route.clarification => clarificationNode
           | Route.error => errorNode none none)) := rfl
  unfold process_query
  rw [key]
  cases hr : routedTo req with
  | error err =>
    refine ⟨Or.inr (Or.inr (Or.inr rfl)), ?_, ?_⟩ <;>
      · intro hv _; exact absurd hv (by simp)
  | ok r =>
    cases r with
    | vision =>
      refine ⟨Or.inl ?_, fun _ hm => ⟨?_, ?_⟩, fun hv _ => ?_⟩
      · simp only [visionProcess_agent_used, Option.getD_some]
      · simp only [visionProcess_agent_used, Option.getD_some]
      · simp only [visionProcess_fail_clarifies
            ⟨caps.validateRes, caps.encodeRes, caps.visionModelRes⟩
            req.image_path none e hm, Option.getD_some]
      · exact absurd hv (by simp)
    | faq =>
      refine ⟨Or.inr (Or.inl ?_), fun hv _ => ?_, fun _ hm => ⟨?_, ?_⟩⟩
      · simp only [faqProcess_agent_used, Option.getD_some]
      · exact absurd hv (by simp)
      · simp only [faqProcess_agent_used, Option.getD_some]
      · simp only [faqProcess_fail_clarifies caps.faqModelRes
            (some (classify_input req.image_path req.text_query).text_query)
            (req.user_location.map some) e hm, Option.getD_some]
    | clarification =>
      refine ⟨Or.inr (Or.inr (Or.inl rfl)), fun hv _ => ?_, fun hv _ => ?_⟩ <;>
        · exact absurd hv (by simp)
    | error =>
      refine ⟨Or.inr (Or.inr (Or.inr rfl)), fun hv _ => ?_, fun hv _ => ?_⟩ <;>
        · exact absurd hv (by simp)

theorem process_query_resilient_witness :
    (process_query
        ⟨Except.ok (), Except.ok (("B64").data), Except.error (("model down").data),
          Except.ok (("ok").data)⟩
        ⟨some (("what is this crack").data), some (("/x.jpg").data), none⟩).agent_used =
      ("agent_1_vision").data ∧
    (process_query
        ⟨Except.ok (), Except.ok (("B64").data), Except.error (("model down").data),
          Except.ok (("ok").data)⟩
        ⟨some (("what is this crack").data), some (("/x.jpg").data), none⟩).needs_clarification =
      true ∧
    (process_query
        ⟨Except.ok (), Except.ok (("B64").data), Except.ok (("v").data),
          Except.error (("model down").data)⟩
        ⟨some (("can my landlord evict me").data), none, none⟩).agent_used =
      ("agent_2_faq").data ∧
    (process_query
        ⟨Except.ok (), Except.ok (("B64").data), Except.ok (("v").data),
          Except.error (("model down").data)⟩
        ⟨some (("can my landlord evict me").data), none, none⟩).needs_clarification =
      true := by
  have h1 := (process_query_resilient
      ⟨Except.ok (), Except.ok (("B64").data), Except.error (("model down").data),
        Except.ok (("ok").data)⟩
      ⟨some (("what is this crack").data), some (("/x.jpg").data), none⟩
      (("model down").data)).2.1 rfl rfl
  have h2 := (process_query_resilient
      ⟨Except.ok (), Except.ok (("B64").data), Except.ok (("v").data),
        Except.error (("model down").data)⟩
      ⟨some (("can my landlord evict me").data), none, none⟩
      (("model down").data)).2.2 rfl rfl
  exact ⟨h1.1, h1.2, h2.1, h2.2⟩

/-- C8 (code-bug demonstration).  A request whose text normalizes to empty and has
no image (`"@#$"`) is classified `error`, but the workflow never reaches the
error node: the router raises on the `None`-valued text, the top-level
handler catches the exception, and the caller receives the generic
exception-derived message — not the static no-input message the claim
requires (the handler name and `needs_clarification = true` do hold). -/
theorem no_input_request_gets_generic_message (caps : Caps) :
    (classify_input none (some (("@#$").data))).input_type = InputType.error ∧
    process_query caps ⟨some (("@#$").data), none, none⟩ =
      { response := ("I encountered an error: ").data ++ noneLowerMsg ++
          (". Please try again.").data
        agent_used := ("error").data
        needs_clarification := true
        detected_issues := none
        confidence_score := some 0
        suggestions := none } ∧
    ("I encountered an error: ").data ++ noneLowerMsg ++
        (". Please try again.").data ≠ ERROR_MESSAGES_no_input := by
  exact ⟨rfl, rfl, by decide⟩
